import Mathlib

/-!
Verification development for the MediaDL backend's job orchestration and
admission-control subsystem.

The definitions below are a shallow embedding of the Python source:

* `acquire` / `release` embed `DownloadSemaphore.acquire` / `.release`
  from `backend/app/services/concurrency.py`.  The Redis-held ledger
  (`download:semaphore:count`, `download:semaphore:active`,
  `download:queue`) is modelled as an explicit `SemState`.  Calls are
  modelled at quiescent points, i.e. each call runs to completion before
  the next starts; Python's unbounded `int` counter is `Int`.
  Note that on the contended path the source calls `redis.lfrompop(...)`,
  a method that exists neither on redis-py's `Redis` nor on
  `fakeredis.FakeRedis`; that call raises `AttributeError` before the
  queue push, the timeout check and the `return False` are reached.  The
  embedding records that outcome as `AcqResult.attrError`.

* `get_job`, `create_job`, `update_job`, `delete_job` embed the functions
  of the same names from `backend/app/services/jobs.py`.  The Redis hash
  per job plus the `jobs:all` recency list are modelled as a `JobStore`
  (an association list of records plus an index list).  TTL bookkeeping
  (`expire`) has no observable effect inside this model and is omitted.

* `can_retry` / `create_retry_job` embed `RetryManager` from
  `backend/app/services/retry.py`; the fresh `uuid.uuid4()` is passed in
  as an explicit `newId` argument, and `Config.MAX_RETRIES` as `maxR`.

* `progress_stream_go` / `progress_stream` embed the `event_stream`
  polling loop of `progress_stream` in `backend/main.py` (poll interval
  0.3 s, `max_iterations = 600 / 0.3 = 2000`), with the SSE text frames
  abstracted into the structured `SseEvent` type.

* `safe_delete_file` embeds the function of that name from
  `backend/app/services/jobs.py`, and `delete_job_endpoint` embeds the
  `DELETE /api/job/{job_id}` handler of `backend/main.py`.  The file
  system is a list of existing regular files given by their absolute
  normalised paths, so `os.path.abspath` is the identity on them.
-/

/-- One call made against the download semaphore: `acq j` is
`DownloadSemaphore.acquire(j)`, `rel j` is `DownloadSemaphore.release(j)`. -/
inductive Op where
  | acq (j : String)
  | rel (j : String)
deriving DecidableEq, Repr

/-- Outcome of one `acquire` call run at a quiescent point.  `granted`
is Python's `return True`.  When the incremented counter exceeds the
limit the source rolls the counter back and then evaluates
`redis.lfrompop(...)`, which raises `AttributeError` (no such client
method), so the call never returns `False` and never pushes onto the
queue: that outcome is `attrError`. -/
inductive AcqResult where
  | granted
  | attrError
deriving DecidableEq, Repr

/-- The admission ledger held in Redis: `download:semaphore:count`,
`download:semaphore:active` and `download:queue`. -/
structure SemState where
  count : Int
  active : Finset String
  queue : List String
deriving DecidableEq

/-- Ledger state right after `DownloadSemaphore.reset()`. -/
def initSem : SemState := ⟨0, ∅, []⟩

/-- Embedding of `DownloadSemaphore.acquire(job_id)` with limit `N`
(`Config.MAX_CONCURRENT_DOWNLOADS`), run at a quiescent point: `incr`,
then on success `sadd` to the active set and `lrem` from the queue; on
failure `decr` back, after which the `lfrompop` call raises. -/
def acquire (N : Int) (s : SemState) (j : String) : AcqResult × SemState :=
  let c := s.count + 1
  if c ≤ N then
    (AcqResult.granted,
      { count := c, active := insert j s.active, queue := s.queue.filter (fun q => q ≠ j) })
  else
    (AcqResult.attrError, { s with count := c - 1 })

/-- Embedding of `DownloadSemaphore.release(job_id)`: `srem` from the
active set, `decr` the counter, and clamp a negative counter to zero. -/
def release (s : SemState) (j : String) : SemState :=
  let c := s.count - 1
  { count := if c < 0 then 0 else c, active := s.active.erase j, queue := s.queue }

/-- Run a sequence of semaphore calls from a starting ledger state. -/
def runOps (N : Int) : SemState → List Op → SemState
  | s, [] => s
  | s, Op.acq j :: rest => runOps N (acquire N s j).2 rest
  | s, Op.rel j :: rest => runOps N (release s j) rest

/-- Well-formed call sequence: every `acquire` is for a job not already
holding a slot and every `release` is for a job currently holding one. -/
def wfOps (N : Int) : SemState → List Op → Bool
  | _, [] => true
  | s, Op.acq j :: rest => decide (j ∉ s.active) && wfOps N (acquire N s j).2 rest
  | s, Op.rel j :: rest => decide (j ∈ s.active) && wfOps N (release s j) rest

lemma acquire_count_le (N : Int) (s : SemState) (j : String)
    (h : s.count ≤ N) : (acquire N s j).2.count ≤ N := by
  unfold acquire
  by_cases hc : s.count + 1 ≤ N
  · simp [hc]
  · simp [hc]
    omega

lemma release_count_le (N : Int) (s : SemState) (j : String) (hN : 0 ≤ N)
    (h : s.count ≤ N) : (release s j).count ≤ N := by
  unfold release
  by_cases hc : s.count - 1 < 0
  · simp [hc]
    omega
  · simp [hc]
    omega

lemma acquire_count_nonneg (N : Int) (s : SemState) (j : String)
    (h : 0 ≤ s.count) : 0 ≤ (acquire N s j).2.count := by
  unfold acquire
  by_cases hc : s.count + 1 ≤ N
  · simp [hc]
    omega
  · simp [hc]
    omega

lemma release_count_nonneg (s : SemState) (j : String) :
    0 ≤ (release s j).count := by
  unfold release
  by_cases hc : s.count - 1 < 0
  · simp [hc]
  · simp [hc]
    omega

lemma runOps_count_le (N : Int) (hN : 0 ≤ N) :
    ∀ (ops : List Op) (s : SemState), s.count ≤ N →
      (runOps N s ops).count ≤ N := by
  intro ops
  induction ops with
  | nil => intro s h; simpa [runOps] using h
  | cons op rest ih =>
    intro s h
    cases op with
    | acq j => exact ih _ (acquire_count_le N s j h)
    | rel j => exact ih _ (release_count_le N s j hN h)

lemma runOps_count_nonneg (N : Int) :
    ∀ (ops : List Op) (s : SemState), 0 ≤ s.count →
      0 ≤ (runOps N s ops).count := by
  intro ops
  induction ops with
  | nil => intro s h; simpa [runOps] using h
  | cons op rest ih =>
    intro s h
    cases op with
    | acq j => exact ih _ (acquire_count_nonneg N s j h)
    | rel j => exact ih _ (release_count_nonneg s j)

lemma acquire_count_eq_card (N : Int) (s : SemState) (j : String)
    (hj : j ∉ s.active) (h : s.count = s.active.card) :
    (acquire N s j).2.count = ((acquire N s j).2.active.card : Int) := by
  unfold acquire
  by_cases hc : s.count + 1 ≤ N
  · simp [hc, Finset.card_insert_of_not_mem hj]
    omega
  · simp [hc]
    omega

lemma release_count_eq_card (s : SemState) (j : String)
    (hj : j ∈ s.active) (h : s.count = s.active.card) :
    (release s j).count = ((release s j).active.card : Int) := by
  unfold release
  have hcard : 1 ≤ s.active.card := Finset.card_pos.mpr ⟨j, hj⟩
  have hc : ¬ s.count - 1 < 0 := by omega
  simp [hc, Finset.card_erase_of_mem hj]
  omega

lemma runOps_count_eq_card (N : Int) :
    ∀ (ops : List Op) (s : SemState), s.count = s.active.card →
      wfOps N s ops = true →
      (runOps N s ops).count = (runOps N s ops).active.card := by
  intro ops
  induction ops with
  | nil => intro s h _; simpa [runOps] using h
  | cons op rest ih =>
    intro s h hwf
    cases op with
    | acq j =>
      simp only [wfOps, Bool.and_eq_true, decide_eq_true_eq] at hwf
      exact ih _ (acquire_count_eq_card N s j hwf.1 h) hwf.2
    | rel j =>
      simp only [wfOps, Bool.and_eq_true, decide_eq_true_eq] at hwf
      exact ih _ (release_count_eq_card s j hwf.1 h) hwf.2

/-- Claim C1 (amended): for every sequence of `acquire`/`release` calls
with limit `N ≥ 0`, at every quiescent point the ledger counter is at
most `N`; and when additionally every `acquire` targets a job not
currently in the active set and every `release` targets a job currently
in the active set, the counter equals the cardinality of the active set. -/
theorem admission_ledger_invariant_wf (N : Int) (ops : List Op) (hN : 0 ≤ N) :
    (runOps N initSem ops).count ≤ N ∧
      (wfOps N initSem ops = true →
        (runOps N initSem ops).count = (runOps N initSem ops).active.card) := by
  refine ⟨runOps_count_le N hN ops initSem (by simp [initSem]; omega), ?_⟩
  intro hwf
  exact runOps_count_eq_card N ops initSem (by simp [initSem]) hwf

/-- Claim C1 (witness): the amended invariant instantiated at limit 2
with the well-formed sequence acquire A, acquire B, release A. -/
theorem admission_ledger_invariant_wf_witness :
    (0 : Int) ≤ 2 ∧
      ((runOps 2 initSem [Op.acq "A", Op.acq "B", Op.rel "A"]).count ≤ 2 ∧
        (wfOps 2 initSem [Op.acq "A", Op.acq "B", Op.rel "A"] = true →
          (runOps 2 initSem [Op.acq "A", Op.acq "B", Op.rel "A"]).count =
            (runOps 2 initSem [Op.acq "A", Op.acq "B", Op.rel "A"]).active.card)) :=
  ⟨by decide, admission_ledger_invariant_wf 2 [Op.acq "A", Op.acq "B", Op.rel "A"] (by decide)⟩

/-- Claim C1 (counterexample): with limit 1, the sequence acquire A then
release B — an unmatched release, which the spec itself contemplates
after a crash-and-restart — leaves the counter at 0 while the active set
still holds A, so `active_count = |active_set|` fails at a quiescent
point and the claim as stated (for every finite sequence) is false. -/
theorem admission_ledger_eq_fails_unmatched_release :
    (runOps 1 initSem [Op.acq "A", Op.rel "B"]).count = 0 ∧
      (runOps 1 initSem [Op.acq "A", Op.rel "B"]).active = {"A"} ∧
      ¬ ((runOps 1 initSem [Op.acq "A", Op.rel "B"]).count =
          (runOps 1 initSem [Op.acq "A", Op.rel "B"]).active.card) := by
  refine ⟨by decide, by decide, by decide⟩

/-- Claim C5: starting from the reset ledger, no sequence of `acquire`
and `release` calls — in particular any number of `release` calls with
no matching successful `acquire` — ever drives the stored counter below
zero: a would-be negative value is clamped back to zero. -/
theorem release_never_negative (N : Int) (ops : List Op) :
    0 ≤ (runOps N initSem ops).count :=
  runOps_count_nonneg N ops initSem (by simp [initSem])

/-- Claim C2 (code evaluation at the failing input): with limit 2 and
slots held by A and B, the third `acquire` for C does not return
`timed_out` with C appended to the queue — the source reaches
`redis.lfrompop`, a method no redis client has, and raises
`AttributeError` after rolling the counter back to 2, leaving the queue
empty.  The continuation of the scenario (release A drops the counter to
1, after which an `acquire` for C is granted) does hold on the rolled
back state. -/
theorem acquire_full_raises_attribute_error :
    (acquire 2 initSem "A").1 = AcqResult.granted ∧
      (acquire 2 (acquire 2 initSem "A").2 "B").1 = AcqResult.granted ∧
      (acquire 2 (acquire 2 (acquire 2 initSem "A").2 "B").2 "C").1 = AcqResult.attrError ∧
      (acquire 2 (acquire 2 (acquire 2 initSem "A").2 "B").2 "C").2.count = 2 ∧
      (acquire 2 (acquire 2 (acquire 2 initSem "A").2 "B").2 "C").2.queue = [] ∧
      (release (acquire 2 (acquire 2 (acquire 2 initSem "A").2 "B").2 "C").2 "A").count = 1 ∧
      (acquire 2 (release (acquire 2 (acquire 2 (acquire 2 initSem "A").2 "B").2 "C").2 "A") "C").1 =
        AcqResult.granted := by
  refine ⟨by decide, by decide, by decide, by decide, by decide, by decide, by decide⟩

/-- One persisted job record, the typed shape of the Redis hash
`job:{job_id}` written by `backend/app/services/jobs.py`.  Numeric
fields are stored as strings in Redis and parsed back by `get_job`; the
model keeps them typed (`progress` as a rational, timestamps and
`retry_count` as naturals). -/
structure JobRecord where
  job_id : String
  url : String
  platform : String
  type : String
  format : String
  quality : String
  status : String
  progress : ℚ
  file_name : String
  file_path : String
  error : String
  retry_count : Nat
  parent_job_id : String
  child_job_id : String
  created_at : Nat
  updated_at : Nat
deriving DecidableEq, Repr

/-- A partial update, the `**updates` keyword arguments of
`update_job`: a field that is `none` is not named in the call and keeps
its stored value. -/
structure JobUpdate where
  status : Option String := none
  progress : Option ℚ := none
  error : Option String := none
  child_job_id : Option String := none
  file_name : Option String := none
  file_path : Option String := none
deriving DecidableEq, Repr

/-- Merge a partial update into a record, the effect of
`redis.hset(key, mapping=updates)` after `updates["updated_at"] = now`
was added. -/
def applyUpdate (r : JobRecord) (u : JobUpdate) (now : Nat) : JobRecord :=
  { r with
    status := u.status.getD r.status
    progress := u.progress.getD r.progress
    error := u.error.getD r.error
    child_job_id := u.child_job_id.getD r.child_job_id
    file_name := u.file_name.getD r.file_name
    file_path := u.file_path.getD r.file_path
    updated_at := now }

/-- Look a record up by job id, the effect of `redis.hgetall` /
`redis.exists` on `job:{id}` (an absent or empty hash both read back as
`none`). -/
def findRecord : List (String × JobRecord) → String → Option JobRecord
  | [], _ => none
  | (k, v) :: rest, id => if k = id then some v else findRecord rest id

/-- Write a record under a job id, the effect of `redis.hset` with a
full mapping: it overwrites an existing hash and creates a missing one. -/
def setRecord : List (String × JobRecord) → String → JobRecord → List (String × JobRecord)
  | [], id, r => [(id, r)]
  | (k, v) :: rest, id, r => if k = id then (id, r) :: rest else (k, v) :: setRecord rest id r

/-- The job store: per-job hashes plus the `jobs:all` recency list
(most recent first). -/
structure JobStore where
  records : List (String × JobRecord)
  index : List String
deriving DecidableEq, Repr

/-- Embedding of `get_job(job_id)` from `app/services/jobs.py`: the
hash read back with numeric fields parsed, or `None`. -/
def get_job (s : JobStore) (job_id : String) : Option JobRecord :=
  findRecord s.records job_id

/-- Embedding of `create_job(job_data)` from `app/services/jobs.py` for
a fully populated record: `hset` the hash, `lpush` the id onto
`jobs:all`.  The `expire` call is untracked (TTL is not modelled). -/
def create_job (s : JobStore) (r : JobRecord) : JobStore :=
  { records := setRecord s.records r.job_id r, index := r.job_id :: s.index }

/-- Embedding of `update_job(job_id, **updates)` from
`app/services/jobs.py`: `False` and no change when the record does not
exist; otherwise a partial hash merge stamped with `updated_at = now`. -/
def update_job (s : JobStore) (job_id : String) (u : JobUpdate) (now : Nat) :
    Bool × JobStore :=
  match findRecord s.records job_id with
  | none => (false, s)
  | some r =>
    (true, { s with records := setRecord s.records job_id (applyUpdate r u now) })

/-- Embedding of `delete_job(job_id)` from `app/services/jobs.py`:
`redis.delete` the hash (its return value decides the result), then
`lrem(jobs:all, 0, job_id)` unconditionally. -/
def delete_job (s : JobStore) (job_id : String) : Bool × JobStore :=
  ((findRecord s.records job_id).isSome,
    { records := s.records.filter (fun kv => kv.1 ≠ job_id),
      index := s.index.filter (fun i => i ≠ job_id) })

lemma findRecord_setRecord (rs : List (String × JobRecord)) (id : String) (r : JobRecord) :
    findRecord (setRecord rs id r) id = some r := by
  induction rs with
  | nil => simp [setRecord, findRecord]
  | cons kv rest ih =>
    by_cases hk : kv.1 = id
    · simp [setRecord, findRecord, hk]
    · simp [setRecord, findRecord, hk, ih]

lemma setRecord_setRecord (rs : List (String × JobRecord)) (id : String) (r1 r2 : JobRecord) :
    setRecord (setRecord rs id r1) id r2 = setRecord rs id r2 := by
  induction rs with
  | nil => simp [setRecord]
  | cons kv rest ih =>
    by_cases hk : kv.1 = id
    · simp [setRecord, hk]
    · simp [setRecord, hk, ih]

/-- Claim C7: `update_job` on a job id with no existing record returns
`False` and changes nothing at all — no record is created and the store
(records and recency index alike) is left exactly as it was; there is
no upsert. -/
theorem update_missing_no_upsert (s : JobStore) (job_id : String)
    (u : JobUpdate) (now : Nat) (h : get_job s job_id = none) :
    update_job s job_id u now = (false, s) := by
  unfold update_job
  unfold get_job at h
  rw [h]

/-- Claim C7 (witness): updating a missing id in the empty store. -/
theorem update_missing_no_upsert_witness :
    get_job ⟨[], []⟩ "x" = none ∧
      update_job ⟨[], []⟩ "x" { progress := some 50 } 3 = (false, ⟨[], []⟩) :=
  ⟨rfl, update_missing_no_upsert ⟨[], []⟩ "x" { progress := some 50 } 3 rfl⟩

lemma optionGetD_getD {α : Type} (o : Option α) (a : α) :
    o.getD (o.getD a) = o.getD a := by
  cases o <;> rfl

lemma applyUpdate_applyUpdate (r : JobRecord) (u : JobUpdate) (n1 n2 : Nat) :
    applyUpdate (applyUpdate r u n1) u n2 =
      { applyUpdate r u n1 with updated_at := n2 } := by
  simp [applyUpdate, optionGetD_getD]

/-- Claim C9: updating a job with `progress = 50` twice is idempotent
up to the timestamp — the second call also succeeds, touches no other
record slot of the store, leaves the recency index unchanged, and the
record after the second call equals the record after the first call in
every field except `updated_at`. -/
theorem update_progress_idempotent (s : JobStore) (job_id : String)
    (r : JobRecord) (n1 n2 : Nat) (h : get_job s job_id = some r) :
    (update_job s job_id { progress := some 50 } n1).1 = true ∧
      (update_job (update_job s job_id { progress := some 50 } n1).2 job_id
          { progress := some 50 } n2).1 = true ∧
      ∃ r1,
        get_job (update_job s job_id { progress := some 50 } n1).2 job_id = some r1 ∧
        get_job (update_job (update_job s job_id { progress := some 50 } n1).2 job_id
            { progress := some 50 } n2).2 job_id = some { r1 with updated_at := n2 } ∧
        (update_job (update_job s job_id { progress := some 50 } n1).2 job_id
            { progress := some 50 } n2).2.index =
          (update_job s job_id { progress := some 50 } n1).2.index := by
  unfold get_job at h
  have h1 : update_job s job_id { progress := some 50 } n1 =
      (true, JobStore.mk
        (setRecord s.records job_id (applyUpdate r { progress := some 50 } n1))
        s.index) := by
    unfold update_job
    rw [h]
  have hfind1 : findRecord (setRecord s.records job_id
      (applyUpdate r { progress := some 50 } n1)) job_id =
      some (applyUpdate r { progress := some 50 } n1) :=
    findRecord_setRecord _ _ _
  have h2 : update_job (update_job s job_id { progress := some 50 } n1).2 job_id
      { progress := some 50 } n2 =
      (true, JobStore.mk
        (setRecord s.records job_id
          (applyUpdate (applyUpdate r { progress := some 50 } n1)
            { progress := some 50 } n2))
        s.index) := by
    rw [h1]
    unfold update_job
    simp only [hfind1, setRecord_setRecord]
  refine ⟨by rw [h1], by rw [h2], applyUpdate r { progress := some 50 } n1, ?_, ?_, ?_⟩
  · rw [h1]
    exact hfind1
  · rw [h2]
    unfold get_job
    simp only [findRecord_setRecord, applyUpdate_applyUpdate]
  · rw [h2, h1]

/-- Sample one-record store used by concrete witnesses: a running job
with progress 10. -/
def wRec : JobRecord :=
  ⟨"j", "u", "p", "video", "mp4", "720", "running", 10, "", "", "", 0, "", "", 1, 1⟩

/-- Sample store holding `wRec` under id j. -/
def wStore : JobStore := ⟨[("j", wRec)], ["j"]⟩

/-- Claim C9 (witness): the idempotence instance on the one-record
sample store. -/
theorem update_progress_idempotent_witness :
    get_job wStore "j" = some wRec ∧
      ((update_job wStore "j" { progress := some 50 } 5).1 = true ∧
        (update_job (update_job wStore "j" { progress := some 50 } 5).2 "j"
            { progress := some 50 } 9).1 = true ∧
        ∃ r1,
          get_job (update_job wStore "j" { progress := some 50 } 5).2 "j" = some r1 ∧
          get_job (update_job (update_job wStore "j" { progress := some 50 } 5).2 "j"
              { progress := some 50 } 9).2 "j" = some { r1 with updated_at := 9 } ∧
          (update_job (update_job wStore "j" { progress := some 50 } 5).2 "j"
              { progress := some 50 } 9).2.index =
            (update_job wStore "j" { progress := some 50 } 5).2.index) :=
  ⟨rfl, update_progress_idempotent wStore "j" wRec 5 9 rfl⟩

/-- Claim C10: for every store and id, `delete_job` returns `True`
exactly when a record existed (so `False` when none did), and it always
runs the `lrem` on the `jobs:all` recency index — the id is purged from
the index both on a failed delete (the index is still mutated) and on a
successful one (a deleted id never lingers in the index). -/
theorem delete_job_purges_index (s : JobStore) (job_id : String) :
    (delete_job s job_id).1 = (get_job s job_id).isSome ∧
      (delete_job s job_id).2.index = s.index.filter (fun i => i ≠ job_id) ∧
      job_id ∉ (delete_job s job_id).2.index := by
  refine ⟨rfl, rfl, ?_⟩
  unfold delete_job
  simp

/-- Claim C10 (witness): one failed delete (an id with index entries
but no record is purged from the index and reported `False`) and one
successful delete (the existing record's id does not linger in the
index and `True` is reported). -/
theorem delete_job_purges_index_witness :
    ((delete_job ⟨[], ["a", "b", "a"]⟩ "a").1 = (get_job ⟨[], ["a", "b", "a"]⟩ "a").isSome ∧
      (delete_job ⟨[], ["a", "b", "a"]⟩ "a").2.index =
        (["a", "b", "a"] : List String).filter (fun i => i ≠ "a") ∧
      "a" ∉ (delete_job ⟨[], ["a", "b", "a"]⟩ "a").2.index) ∧
    ((delete_job wStore "j").1 = (get_job wStore "j").isSome ∧
      (delete_job wStore "j").2.index = (["j"] : List String).filter (fun i => i ≠ "j") ∧
      "j" ∉ (delete_job wStore "j").2.index) ∧
    (get_job ⟨[], ["a", "b", "a"]⟩ "a").isSome = false ∧
    (get_job wStore "j").isSome = true :=
  ⟨delete_job_purges_index ⟨[], ["a", "b", "a"]⟩ "a",
    delete_job_purges_index wStore "j", rfl, rfl⟩

/-- Embedding of `RetryManager.can_retry(job_id)` from
`app/services/retry.py` with `Config.MAX_RETRIES = maxR`: the record
must exist, its status must be error or cancelled, and its retry count
must be strictly below the budget. -/
def can_retry (s : JobStore) (maxR : Nat) (job_id : String) : Bool :=
  match get_job s job_id with
  | none => false
  | some j =>
    if j.status ≠ "error" ∧ j.status ≠ "cancelled" then false
    else decide (j.retry_count < maxR)

/-- Embedding of `RetryManager.create_retry_job(original_job_id)` (no
parameter overrides) from `app/services/retry.py`.  The fresh
`uuid.uuid4()` is the explicit argument `newId`.  The new record is the
`job_data` dict merged with `create_job`'s defaults (`created_at`,
`updated_at`, `child_job_id`); the original record then gets
`child_job_id = newId` through `update_job`.  Note the source guards
only on existence and on `retry_count >= MAX_RETRIES` — it does not
consult `can_retry`. -/
def create_retry_job (s : JobStore) (maxR : Nat) (original_job_id newId : String)
    (now : Nat) : Option String × JobStore :=
  match get_job s original_job_id with
  | none => (none, s)
  | some orig =>
    if maxR ≤ orig.retry_count then (none, s)
    else
      let newRec : JobRecord :=
        { job_id := newId
          url := orig.url
          platform := orig.platform
          type := orig.type
          format := orig.format
          quality := orig.quality
          status := "queued"
          progress := 0
          file_name := ""
          file_path := ""
          error := ""
          retry_count := orig.retry_count + 1
          parent_job_id := original_job_id
          child_job_id := ""
          created_at := now
          updated_at := now }
      let s1 := create_job s newRec
      let s2 := (update_job s1 original_job_id { child_job_id := some newId } now).2
      (some newId, s2)

/-- Claim C3 (counterexample): on a store whose only record has status
done and retry budget left, `can_retry` is false yet `create_retry_job`
returns a fresh job id rather than `None` — the source checks only
existence and the retry budget, not the status, so the claim as stated
is false. -/
theorem create_retry_ignores_status_counterexample :
    can_retry ⟨[("a", ⟨"a", "u", "p", "video", "mp4", "720", "done", 100, "f.mp4",
        "/d/f.mp4", "", 0, "", "", 1, 1⟩)], ["a"]⟩ 3 "a" = false ∧
      (create_retry_job ⟨[("a", ⟨"a", "u", "p", "video", "mp4", "720", "done", 100, "f.mp4",
        "/d/f.mp4", "", 0, "", "", 1, 1⟩)], ["a"]⟩ 3 "a" "b" 7).1 = some "b" := by
  refine ⟨by decide, by decide⟩

/-- Claim C3 (amended): `create_retry_job(job_id)` returns `None`
exactly when the record is absent or its `retry_count` has reached
`max_retries`; the status of the record is not consulted, so `None` is
not returned merely because the status is neither error nor cancelled. -/
theorem create_retry_none_iff_budget (s : JobStore) (maxR : Nat)
    (original_job_id newId : String) (now : Nat) :
    (create_retry_job s maxR original_job_id newId now).1 = none ↔
      (get_job s original_job_id = none ∨
        ∃ orig, get_job s original_job_id = some orig ∧ maxR ≤ orig.retry_count) := by
  unfold create_retry_job
  cases hg : get_job s original_job_id with
  | none => simp
  | some orig =>
    by_cases hb : maxR ≤ orig.retry_count
    · simp [hb]
    · simp [hb]

/-- Concrete original record for the retry scenario: a failed job that
has already been retried twice, with budget `MAX_RETRIES = 3`. -/
def origRec : JobRecord :=
  ⟨"O", "u", "yt", "video", "mp4", "720", "error", 37, "", "", "boom", 2, "", "", 1, 2⟩

/-- Store holding only `origRec`. -/
def origStore : JobStore := ⟨[("O", origRec)], ["O"]⟩

/-- Claim C4: on a job with status error, `retry_count = 2`,
`max_retries = 3`: `can_retry` is true; `create_retry_job` returns a new
id whose record has `retry_count = 3` and `parent_job_id` equal to the
original id; the original record's `child_job_id` now points at the new
id while its status and error are untouched; and a further
`create_retry_job` on the new record (`retry_count = 3 = max_retries`)
returns `None`. -/
theorem retry_scenario_b :
    can_retry origStore 3 "O" = true ∧
      (create_retry_job origStore 3 "O" "N1" 9).1 = some "N1" ∧
      get_job (create_retry_job origStore 3 "O" "N1" 9).2 "N1" =
        some ⟨"N1", "u", "yt", "video", "mp4", "720", "queued", 0, "", "", "", 3, "O", "", 9, 9⟩ ∧
      get_job (create_retry_job origStore 3 "O" "N1" 9).2 "O" =
        some ⟨"O", "u", "yt", "video", "mp4", "720", "error", 37, "", "", "boom", 2, "", "N1", 1, 9⟩ ∧
      (create_retry_job (create_retry_job origStore 3 "O" "N1" 9).2 3 "N1" "N2" 11).1 = none := by
  refine ⟨by decide, by decide, by decide, by decide, by decide⟩

/-- One server-sent event of the progress stream, abstracting the text
frames of `event_stream` in `backend/main.py`: `progress p fname` is
`data:<percent>[|<file_name>]` (the file name is attached only when the
record carries one and progress has reached 100), and `errorEv msg` is
`data:ERROR:<msg>`. -/
inductive SseEvent where
  | progress (p : ℚ) (fname : Option String)
  | errorEv (msg : String)
deriving DecidableEq, Repr

/-- The write the stall guard performs:
`update_job(job_id, status="error", error="Timeout: no progress")`. -/
def stallUpdate : JobUpdate :=
  { status := some "error", error := some "Timeout: no progress" }

/-- Embedding of the polling loop of `event_stream` in
`progress_stream` (`backend/main.py`).  `fuel` is the number of loop
iterations still allowed (`max_iterations - iteration`), kept in step
with the explicit `iteration` counter that the stall guard reads; `last`
is `last_progress`.  Each tick rereads the record, emits a progress
event when the value changed, then checks the error field, the terminal
statuses, and the stall guard (`status == "running" and iteration > 100
and current_progress == 0`), which writes the error back through
`update_job` and stops.  When fuel runs out the loop has hit
`max_iterations` and a synthetic timeout error event is emitted. -/
def progress_stream_go (job_id : String) (now : Nat) :
    Nat → Nat → ℚ → JobStore → List SseEvent × JobStore
  | 0, _, _, s => ([SseEvent.errorEv "Timeout"], s)
  | fuel + 1, iteration, last, s =>
    let it := iteration + 1
    match get_job s job_id with
    | none => ([SseEvent.errorEv "Job not found"], s)
    | some job =>
      let evs0 : List SseEvent :=
        if job.progress = last then []
        else [SseEvent.progress job.progress
          (if job.file_name ≠ "" ∧ 100 ≤ job.progress then some job.file_name else none)]
      let last2 := if job.progress = last then last else job.progress
      if job.error ≠ "" then (evs0 ++ [SseEvent.errorEv job.error], s)
      else if job.status = "done" ∨ job.status = "error" then (evs0, s)
      else if job.status = "running" ∧ 100 < it ∧ job.progress = 0 then
        (evs0 ++ [SseEvent.errorEv "Download timed out (no progress)"],
          (update_job s job_id stallUpdate now).2)
      else
        let rec2 := progress_stream_go job_id now fuel it last2 s
        (evs0 ++ rec2.1, rec2.2)

/-- Embedding of `progress_stream(job_id)` from `backend/main.py`: the
loop started with `iteration = 0`, `last_progress = -1` and
`max_iterations = int(600 / 0.3) = 2000` iterations of fuel. -/
def progress_stream (s : JobStore) (job_id : String) (now : Nat) :
    List SseEvent × JobStore :=
  progress_stream_go job_id now 2000 0 (-1) s

lemma progress_stream_go_quiet (s : JobStore) (job_id : String) (now : Nat)
    (r : JobRecord) (hget : get_job s job_id = some r)
    (hst : r.status = "running") (hpr : r.progress = 0) (herr : r.error = "")
    (fuel iteration : Nat) (hlt : iteration + 1 ≤ 100) :
    progress_stream_go job_id now (fuel + 1) iteration 0 s =
      progress_stream_go job_id now fuel (iteration + 1) 0 s := by
  rw [progress_stream_go, hget]
  have hq : ¬ (100 < iteration + 1) := by omega
  simp [hst, hpr, herr, hq]

lemma progress_stream_go_steady (s : JobStore) (job_id : String) (now : Nat)
    (r : JobRecord) (hget : get_job s job_id = some r)
    (hst : r.status = "running") (hpr : r.progress = 0) (herr : r.error = "") :
    ∀ k : Nat, k ≤ 99 →
      progress_stream_go job_id now (1900 + k) (100 - k) 0 s =
        progress_stream_go job_id now 1900 100 0 s := by
  intro k
  induction k with
  | zero => intro _; rfl
  | succ n ih =>
    intro hn
    have hfuel : 1900 + (n + 1) = (1900 + n) + 1 := rfl
    have hit : (100 - (n + 1)) + 1 = 100 - n := by omega
    rw [hfuel,
      progress_stream_go_quiet s job_id now r hget hst hpr herr (1900 + n)
        (100 - (n + 1)) (by omega),
      hit]
    exact ih (by omega)

lemma progress_stream_go_fire (s : JobStore) (job_id : String) (now : Nat)
    (r : JobRecord) (hget : get_job s job_id = some r)
    (hst : r.status = "running") (hpr : r.progress = 0) (herr : r.error = "") :
    progress_stream_go job_id now 1900 100 0 s =
      ([SseEvent.errorEv "Download timed out (no progress)"],
        (update_job s job_id stallUpdate now).2) := by
  rw [show (1900 : Nat) = 1899 + 1 from rfl, progress_stream_go, hget]
  simp [hst, hpr, herr]

lemma progress_stream_first_tick (s : JobStore) (job_id : String) (now : Nat)
    (r : JobRecord) (hget : get_job s job_id = some r)
    (hst : r.status = "running") (hpr : r.progress = 0) (herr : r.error = "") :
    progress_stream s job_id now =
      (SseEvent.progress 0 none :: (progress_stream_go job_id now 1999 1 0 s).1,
        (progress_stream_go job_id now 1999 1 0 s).2) := by
  unfold progress_stream
  rw [show (2000 : Nat) = 1999 + 1 from rfl, progress_stream_go, hget]
  have hne : ¬ ((0 : ℚ) = -1) := by norm_num
  have hle : ¬ ((100 : ℚ) ≤ 0) := by norm_num
  simp [hst, hpr, herr, hne, hle]

lemma progress_stream_error_immediate (s : JobStore) (job_id : String) (now : Nat)
    (r : JobRecord) (hget : get_job s job_id = some r)
    (hpr : r.progress = 0) (herr : r.error ≠ "") :
    progress_stream s job_id now =
      ([SseEvent.progress 0 none, SseEvent.errorEv r.error], s) := by
  unfold progress_stream
  rw [show (2000 : Nat) = 1999 + 1 from rfl, progress_stream_go, hget]
  have hne : ¬ ((0 : ℚ) = -1) := by norm_num
  have hle : ¬ ((100 : ℚ) ≤ 0) := by norm_num
  simp [hpr, herr, hne, hle]

/-- Claim C6: when a record sits at `progress = 0` with
`status = "running"` and an empty error field, the progress stream polls
it for the stall window (100 quiet ticks after the first) and then, on
tick 101, emits the two events `data:0.0` and
`data:ERROR:Download timed out (no progress)` and stops, writing
`status = "error"`, `error = "Timeout: no progress"` back onto the
record; a second subscriber started afterwards on the same store sees
the terminal state immediately — its stream stops on its first tick with
the stored error event and mutates nothing. -/
theorem stall_guard_forces_error (s : JobStore) (job_id : String) (now now2 : Nat)
    (r : JobRecord) (hget : get_job s job_id = some r)
    (hst : r.status = "running") (hpr : r.progress = 0) (herr : r.error = "") :
    progress_stream s job_id now =
      ([SseEvent.progress 0 none, SseEvent.errorEv "Download timed out (no progress)"],
        (update_job s job_id stallUpdate now).2) ∧
      get_job (progress_stream s job_id now).2 job_id =
        some { r with status := "error", error := "Timeout: no progress", updated_at := now } ∧
      progress_stream (progress_stream s job_id now).2 job_id now2 =
        ([SseEvent.progress 0 none, SseEvent.errorEv "Timeout: no progress"],
          (progress_stream s job_id now).2) := by
  have hsteady : progress_stream_go job_id now 1999 1 0 s =
      progress_stream_go job_id now 1900 100 0 s := by
    have h99 := progress_stream_go_steady s job_id now r hget hst hpr herr 99 (by omega)
    norm_num at h99
    exact h99
  have hupd : update_job s job_id stallUpdate now =
      (true, JobStore.mk
        (setRecord s.records job_id (applyUpdate r stallUpdate now)) s.index) := by
    unfold update_job
    unfold get_job at hget
    rw [hget]
  have happly : applyUpdate r stallUpdate now =
      { r with status := "error", error := "Timeout: no progress", updated_at := now } := by
    simp [applyUpdate, stallUpdate]
  have hmain : progress_stream s job_id now =
      ([SseEvent.progress 0 none, SseEvent.errorEv "Download timed out (no progress)"],
        (update_job s job_id stallUpdate now).2) := by
    rw [progress_stream_first_tick s job_id now r hget hst hpr herr, hsteady,
      progress_stream_go_fire s job_id now r hget hst hpr herr]
  have hget2 : get_job (progress_stream s job_id now).2 job_id =
      some { r with status := "error", error := "Timeout: no progress", updated_at := now } := by
    rw [hmain, hupd]
    unfold get_job
    rw [findRecord_setRecord, happly]
  refine ⟨hmain, hget2, ?_⟩
  rw [progress_stream_error_immediate (progress_stream s job_id now).2 job_id now2
    { r with status := "error", error := "Timeout: no progress", updated_at := now }
    hget2 hpr (by simp)]

/-- Sample stalled record: running, progress 0, no error. -/
def stallRec : JobRecord :=
  ⟨"z", "u", "p", "video", "mp4", "720", "running", 0, "", "", "", 0, "", "", 1, 1⟩

/-- Sample store holding only `stallRec` under id z. -/
def stallStore : JobStore := ⟨[("z", stallRec)], ["z"]⟩

/-- Claim C6 (witness): the stall guard instantiated on the concrete
stalled one-record store. -/
theorem stall_guard_forces_error_witness :
    (get_job stallStore "z" = some stallRec ∧ stallRec.status = "running" ∧
        stallRec.progress = 0 ∧ stallRec.error = "") ∧
      (progress_stream stallStore "z" 4 =
        ([SseEvent.progress 0 none, SseEvent.errorEv "Download timed out (no progress)"],
          (update_job stallStore "z" stallUpdate 4).2) ∧
        get_job (progress_stream stallStore "z" 4).2 "z" =
          some { stallRec with
                  status := "error", error := "Timeout: no progress", updated_at := 4 } ∧
        progress_stream (progress_stream stallStore "z" 4).2 "z" 8 =
          ([SseEvent.progress 0 none, SseEvent.errorEv "Timeout: no progress"],
            (progress_stream stallStore "z" 4).2)) :=
  ⟨⟨rfl, rfl, rfl, rfl⟩, stall_guard_forces_error stallStore "z" 4 8 stallRec rfl rfl rfl rfl⟩

/-- Outcome of the `DELETE /api/job/{job_id}` endpoint in
`backend/main.py`: the job-not-found error body, the refusal for a
running job, or the deleted confirmation. -/
inductive DeleteOutcome where
  | notFound
  | runningRefused
  | deleted
deriving DecidableEq, Repr

/-- Python's `s.startswith(pre)`: the code points of `pre` are a prefix
of the code points of `s`. -/
def startswith (s pre : String) : Bool :=
  pre.data.isPrefixOf s.data

/-- Embedding of `safe_delete_file(file_path)` from
`app/services/jobs.py`.  The file system `fs` is the list of existing
regular files, named by absolute normalised paths, so `os.path.abspath`
is the identity on them and `os.path.isfile` is membership in `fs`.
The security gate is the source's
`abs_file_path.startswith(abs_downloads_dir)` — a plain string prefix
test.  Returns the Python result and the file system afterwards. -/
def safe_delete_file (fs : List String) (downloadsDir file_path : String) :
    Bool × List String :=
  if file_path = "" ∨ ¬ fs.contains file_path then (true, fs)
  else if ¬ startswith file_path downloadsDir then (false, fs)
  else if ¬ fs.contains file_path then (false, fs)
  else (true, fs.filter (fun p => p ≠ file_path))

/-- Embedding of `delete_job_endpoint(job_id)` from `backend/main.py`:
404 when the record is absent, refusal when `status == "running"`,
otherwise best-effort `safe_delete_file` on the record's `file_path`
(its boolean result is ignored by the endpoint) followed by
`delete_job`. -/
def delete_job_endpoint (s : JobStore) (fs : List String)
    (downloadsDir job_id : String) : DeleteOutcome × JobStore × List String :=
  match get_job s job_id with
  | none => (DeleteOutcome.notFound, s, fs)
  | some job =>
    if job.status = "running" then (DeleteOutcome.runningRefused, s, fs)
    else
      let fs2 := if job.file_path ≠ "" then (safe_delete_file fs downloadsDir job.file_path).2
        else fs
      (DeleteOutcome.deleted, (delete_job s job.job_id).2, fs2)

/-- A completed job whose `file_path` points at a sibling directory
whose absolute path merely shares the downloads directory's string
prefix. -/
def evilRec : JobRecord :=
  ⟨"e", "u", "p", "video", "mp4", "720", "done", 100, "movie.mp4",
    "/data/downloads-evil/movie.mp4", "", 0, "", "", 1, 2⟩

/-- Store holding only `evilRec`, and a running job for the refusal
half of the scenario. -/
def evilStore : JobStore :=
  ⟨[("e", evilRec),
    ("run", ⟨"run", "u", "p", "video", "mp4", "720", "running", 40, "", "", "", 0, "", "",
      1, 2⟩)], ["run", "e"]⟩

/-- Claim C8 (code evaluation at the failing input): deleting a running
job is indeed refused with nothing touched, but the path guard is a raw
`startswith` on the downloads directory string: the file
`/data/downloads-evil/movie.mp4` does not resolve inside the configured
directory `/data/downloads` (it is not under `/data/downloads/`), yet
`safe_delete_file` reports success and removes it, and the delete
endpoint for that job removes it from disk — so the claimed guarantee
fails for prefix-sibling paths. -/
theorem delete_outside_dir_prefix_escape :
    (delete_job_endpoint evilStore ["/data/downloads-evil/movie.mp4"]
        "/data/downloads" "run").1 = DeleteOutcome.runningRefused ∧
      (delete_job_endpoint evilStore ["/data/downloads-evil/movie.mp4"]
        "/data/downloads" "run").2.2 = ["/data/downloads-evil/movie.mp4"] ∧
      startswith "/data/downloads-evil/movie.mp4" ("/data/downloads" ++ "/") = false ∧
      safe_delete_file ["/data/downloads-evil/movie.mp4"] "/data/downloads"
        "/data/downloads-evil/movie.mp4" = (true, []) ∧
      (delete_job_endpoint evilStore ["/data/downloads-evil/movie.mp4"]
        "/data/downloads" "e").1 = DeleteOutcome.deleted ∧
      (delete_job_endpoint evilStore ["/data/downloads-evil/movie.mp4"]
        "/data/downloads" "e").2.2 = [] := by
  refine ⟨by decide, by decide, by decide, by decide, by decide, by decide⟩
